import Mathlib

/-!
Verification of the account-ledger consistency engine of a small Go finance
service (`finance_app`).  The Go repositories (`repositories/accounts.go`,
`repositories/transactions.go`) and HTTP service handlers
(`services/accounts.go`, `services/transactions.go`) are shallowly embedded as
pure Lean functions over an explicit store state `DB`.

Modelling conventions:
* MongoDB ObjectIDs are modelled as `Nat`; `0` models the zero ObjectID
  (`primitive.ObjectID.IsZero`).  The hex round trip `ObjectIDFromHex ∘ Hex`
  performed at the HTTP boundary is the identity on valid ids and is elided.
* `float64` monetary values are modelled as `Int`; every value handled by the
  claims is integral, and for such values Go's float64 arithmetic is exact.
* `primitive.DateTime` timestamps are modelled as `Nat`; `DB.now` is the value
  `time.Now()` returns during the call being modelled.
* Go errors are `Except String` carrying the exact `errors.New` message from
  the source; the spec's error-kind taxonomy maps `"balance cannot be
  negative"` and the `Create` validation messages to `InvalidArgument` and
  `"account with this email already exists"` to `Conflict`.
* A Go nil slice (which encodes to JSON `null`) is modelled as `none` of an
  `Option (List _)`; a non-nil slice as `some`.
* `DB.updateOps` instruments the store with a count of executed `UpdateOne`
  write commands, so that a write that stores an unchanged value is still
  observable in the model.
-/

/-- Decidable equality for `Except`, used to evaluate repository results on
concrete inputs. -/
instance {ε α : Type} [DecidableEq ε] [DecidableEq α] : DecidableEq (Except ε α) := fun x y =>
  match x, y with
  | .ok a, .ok b =>
      if h : a = b then isTrue (by rw [h]) else isFalse (by intro hc; cases hc; exact h rfl)
  | .error a, .error b =>
      if h : a = b then isTrue (by rw [h]) else isFalse (by intro hc; cases hc; exact h rfl)
  | .ok _, .error _ => isFalse (by intro hc; cases hc)
  | .error _, .ok _ => isFalse (by intro hc; cases hc)

/-- Account record (`models.Accounts`): `_id`, `balance`, `name`, `email`,
`created_at`, `updated_at`. -/
structure Accounts where
  id : Nat
  balance : Int
  name : String
  email : String
  createdAt : Nat
  updatedAt : Nat
deriving Repr, DecidableEq

/-- Transaction record (`models.Transaction`): `_id`, `transactionType`,
`amount`, `balance` (a legacy field the handler leaves zero), `accountId`,
`created_at`. -/
structure Transaction where
  id : Nat
  transactionType : String
  amount : Int
  balance : Int
  accountId : Nat
  createdAt : Nat
deriving Repr, DecidableEq

/-- Transaction type constant `models.Deposit` (`TransactionType` is a Go
string type, so it is modelled as `String`). -/
def Deposit : String := "DEPOSIT"

/-- Transaction type constant `models.Withdraw`. -/
def Withdraw : String := "WITHDRAW"

/-- Transaction type constant `models.Transfer`. -/
def Transfer : String := "TRANSFER"

/-- The document store: the `accounts` and `transactions` collections in
insertion (natural) order, a fresh-ObjectID source, the current clock value,
and the `UpdateOne` instrumentation counter. -/
structure DB where
  accounts : List Accounts
  transactions : List Transaction
  nextId : Nat
  now : Nat
  updateOps : Nat
deriving Repr, DecidableEq

/-- HTTP response summary for the transactions handler: status code, the
`Success` flag and the `Error` string of `types.APIResponse`. -/
structure Resp where
  status : Nat
  success : Bool
  error : String
deriving Repr, DecidableEq

/-- Applies `f` to the first element satisfying `p`, leaving the rest
unchanged; models MongoDB `UpdateOne`, which updates the first matching
document in natural order. -/
def updateFirst (p : α → Bool) (f : α → α) : List α → List α
  | [] => []
  | x :: xs => if p x then f x :: xs else x :: updateFirst p f xs

/-- Models `AccountsMongoRepository.FindOne`: first document of the `accounts`
collection whose `_id` equals `id`, or the error `"account not found"`.
The preceding empty-string and hex-format checks on the raw id string are
elided (ids are already modelled as parsed ObjectIDs). -/
def AccountsFindOne (db : DB) (id : Nat) : Except String Accounts :=
  match db.accounts.find? (fun a => a.id == id) with
  | some account => .ok account
  | none => .error "account not found"

/-- Models `AccountsMongoRepository.UpdateBalance`: re-fetches the account,
rejects a negative `newBalance`, then issues `UpdateOne` setting `balance`
(and nothing else — `updated_at` is not refreshed). -/
def UpdateBalance (db : DB) (id : Nat) (newBalance : Int) : Except String DB :=
  match AccountsFindOne db id with
  | .error e => .error e
  | .ok account =>
    if newBalance < 0 then .error "balance cannot be negative"
    else .ok { db with
      accounts := updateFirst (fun a => a.id == account.id)
        (fun a => { a with balance := newBalance }) db.accounts,
      updateOps := db.updateOps + 1 }

/-- Models `AccountsMongoRepository.CreateAccount`.  The Go function mutates
its `*models.Accounts` argument, so the model returns both the repository
result and the final value of that argument: on a duplicate email it copies
the existing document's `_id` into the argument and fails; otherwise it stamps
`created_at`/`updated_at`, inserts, and stores the `InsertedID` (a fresh
ObjectID when the argument's `_id` was zero). -/
def AccountsCreateAccount (db : DB) (account : Accounts) : Except String DB × Accounts :=
  match db.accounts.find? (fun a => a.email == account.email) with
  | some oldAccount =>
      (.error "account with this email already exists", { account with id := oldAccount.id })
  | none =>
    let stamped : Accounts := { account with createdAt := db.now, updatedAt := db.now }
    let inserted : Accounts :=
      if stamped.id = 0 then { stamped with id := db.nextId } else stamped
    (.ok { db with
            accounts := db.accounts ++ [inserted],
            nextId := if stamped.id = 0 then db.nextId + 1 else db.nextId },
     inserted)

/-- Models `TransactionMongoRepository.Create`: validates the required type,
positive amount and non-zero account ObjectID, enforces the type enum, then
assigns `_id` (fresh when zero) and `created_at` and inserts.  The `nil`
pointer check of the Go code cannot fire in a value model and is elided. -/
def TransactionsCreate (db : DB) (transaction : Transaction) :
    Except String (DB × Transaction) :=
  if transaction.transactionType = "" then .error "transaction type is required"
  else if transaction.amount ≤ 0 then .error "amount must be greater than 0"
  else if transaction.accountId = 0 then .error "account ID is required"
  else if transaction.transactionType = Deposit ∨ transaction.transactionType = Withdraw ∨
      transaction.transactionType = Transfer then
    let withId : Transaction :=
      if transaction.id = 0 then { transaction with id := db.nextId } else transaction
    let inserted : Transaction := { withId with createdAt := db.now }
    .ok ({ db with
            transactions := db.transactions ++ [inserted],
            nextId := if transaction.id = 0 then db.nextId + 1 else db.nextId },
         inserted)
  else .error ("invalid transaction type: " ++ transaction.transactionType)

/-- Inserts `x` into a list sorted descending by `createdAt`, after all
elements whose key is greater than or equal — the stable placement. -/
def insertDescByCreatedAt (s : List Transaction) (x : Transaction) : List Transaction :=
  match s with
  | [] => [x]
  | y :: ys => if x.createdAt ≤ y.createdAt then y :: insertDescByCreatedAt ys x
               else x :: y :: ys

/-- Stable descending sort by `createdAt`; models the `created_at: -1` sort of
the transactions queries (that key matches the stored bson tag). -/
def sortTransactionsDesc (l : List Transaction) : List Transaction :=
  l.foldl insertDescByCreatedAt []

/-- Models `TransactionMongoRepository.GetByAccountID`: the transactions whose
`accountId` equals the given id, newest first.  The id string handed to it by
the handler is `account.ID.Hex()`, which always parses back, so the error
branches of the Go function cannot fire and are elided. -/
def TransactionsGetByAccountID (db : DB) (accountId : Nat) : List Transaction :=
  sortTransactionsDesc (db.transactions.filter (fun t => t.accountId == accountId))

/-- Request body of `POST /api/v1/transactions`
(`services.CreateTransactionRequest`). -/
structure CreateTransactionRequest where
  transactionType : String
  amount : Int
  accountId : Nat
deriving Repr, DecidableEq

/-- Models one rune of Go `strings.ToUpper` for the ASCII inputs the API
handles. -/
def upChar (c : Char) : Char :=
  if 97 ≤ c.toNat ∧ c.toNat ≤ 122 then Char.ofNat (c.toNat - 32) else c

/-- Models Go `strings.ToUpper` (ASCII range). -/
def goToUpper (s : String) : String := String.mk (s.data.map upChar)

/-- New balance computed by the `switch` of `CreateTransaction`: `+amount` for
DEPOSIT, `-amount` for WITHDRAW; the `default` arm leaves the balance
unchanged. -/
def switchBalance (ty : String) (balance amount : Int) : Int :=
  if ty = Deposit then balance + amount
  else if ty = Withdraw then balance - amount
  else balance

/-- Responses emitted by the `switch` of `CreateTransaction`: the `default`
arm sends the invalid-type response but, lacking a `return`, lets execution
continue. -/
def switchResps (ty : String) : List Resp :=
  if ty = Deposit then []
  else if ty = Withdraw then []
  else [⟨400, false, "Invalid transaction type"⟩]

/-- Models `TransactionHandler.CreateTransaction` (the deposit/withdraw
`Apply` operation): looks up the account, runs the type `switch` (whose
`default` arm does not return), calls `UpdateBalance` with the computed
balance, appends the ledger record via `TransactionsCreate`, and reloads the
account and its transactions for the reply.  The JSON-decode failure branch is
elided (requests are modelled already decoded).  The result is the final store
plus the list of responses written to the connection, in order; the first
response carries the HTTP status code the client observes. -/
def CreateTransaction (db : DB) (req : CreateTransactionRequest) : DB × List Resp :=
  match AccountsFindOne db req.accountId with
  | .error e => (db, [⟨400, false, e⟩])
  | .ok account =>
    let pre : List Resp := switchResps (goToUpper req.transactionType)
    let newBalance : Int :=
      switchBalance (goToUpper req.transactionType) account.balance req.amount
    match UpdateBalance db account.id newBalance with
    | .error e => (db, pre ++ [⟨500, false, e⟩])
    | .ok db1 =>
      match TransactionsCreate db1
          ⟨0, goToUpper req.transactionType, req.amount, 0, account.id, 0⟩ with
      | .error e => (db1, pre ++ [⟨400, false, e⟩])
      | .ok (db2, _inserted) =>
        match AccountsFindOne db2 account.id with
        | .error _ => (db2, pre ++ [⟨500, false, "Failed to fetch updated account"⟩])
        | .ok _updatedAccount =>
          let _transactionsForTheUser := TransactionsGetByAccountID db2 account.id
          (db2, pre ++ [⟨201, true, ""⟩])

/-- Final store after an `Apply` (`CreateTransaction`) call. -/
def applyDB (db : DB) (req : CreateTransactionRequest) : DB :=
  (CreateTransaction db req).1

/-- True when the first response written by `CreateTransaction` — the one
whose status code the HTTP client observes — reports success. -/
def applyOk (db : DB) (req : CreateTransactionRequest) : Bool :=
  match (CreateTransaction db req).2.head? with
  | some r => r.success
  | none => false

/-- Stored balance of the account with the given id, read the same way the
repository reads it (first match in natural order). -/
def storedBalance (db : DB) (id : Nat) : Option Int :=
  (db.accounts.find? (fun a => a.id == id)).map (fun a => a.balance)

/-- Request body of `POST /api/v1/accounts` (`services.CreateAccountRequest`):
`initialBalance`, `name`, `email`. -/
structure CreateAccountRequest where
  initialBalance : Int
  name : String
  email : String
deriving Repr, DecidableEq

/-- HTTP response of the accounts handler; `data` is the `models.Accounts`
value placed in the `Data` field of `types.APIResponse` (the handler includes
it on the repository-error path as well). -/
structure AccountResp where
  status : Nat
  success : Bool
  error : String
  data : Option Accounts
deriving Repr, DecidableEq

/-- Models `AccountHandler.CreateAccount`: validates `name` and `email`
non-empty, builds the account value with a zero `_id`, calls the repository,
and on a repository error responds with status 400 carrying the error text and
the (possibly mutated) account value as `Data`. -/
def handleCreateAccount (db : DB) (req : CreateAccountRequest) : DB × AccountResp :=
  if req.name = "" then (db, ⟨400, false, "Name is required", none⟩)
  else if req.email = "" then (db, ⟨400, false, "Email is required", none⟩)
  else
    let account : Accounts := ⟨0, req.initialBalance, req.name, req.email, 0, 0⟩
    match AccountsCreateAccount db account with
    | (.error e, mutated) => (db, ⟨400, false, e, some mutated⟩)
    | (.ok db1, created) => (db1, ⟨201, true, "", some created⟩)

/-- A bson value as stored by this service: ObjectIDs, numbers, strings and
datetimes. -/
inductive BVal
  | oid (n : Nat)
  | num (x : Int)
  | str (s : String)
  | date (n : Nat)
deriving Repr, DecidableEq

/-- The bson document an `Accounts` struct is stored as, keyed exactly by the
struct's bson tags: `_id`, `balance`, `name`, `email`, `created_at`,
`updated_at`; tags marked `omitempty` drop zero values. -/
def accountDoc (a : Accounts) : List (String × BVal) :=
  (if a.id = 0 then [] else [("_id", BVal.oid a.id)])
    ++ [("balance", BVal.num a.balance), ("name", BVal.str a.name),
        ("email", BVal.str a.email)]
    ++ (if a.createdAt = 0 then [] else [("created_at", BVal.date a.createdAt)])
    ++ (if a.updatedAt = 0 then [] else [("updated_at", BVal.date a.updatedAt)])

/-- Value stored under `key` in a bson document, if any. -/
def docField (doc : List (String × BVal)) (key : String) : Option BVal :=
  (doc.find? (fun kv => kv.1 == key)).map (fun kv => kv.2)

/-- Mongo comparison on the sort-key types used by this service (numbers,
ObjectIDs, datetimes compare by value; distinct type brackets compare by a
fixed rank, per Mongo's cross-type ordering). -/
def bvalLeB : BVal → BVal → Bool
  | .num a, .num b => a ≤ b
  | .oid a, .oid b => a ≤ b
  | .date a, .date b => a ≤ b
  | .num _, _ => true
  | .str _, .num _ => false
  | .str _, _ => true
  | .oid _, .date _ => true
  | .oid _, _ => false
  | .date _, _ => false

/-- Comparison lifted to optional field values: a missing field sorts as null,
lowest of all. -/
def optValLe : Option BVal → Option BVal → Bool
  | none, _ => true
  | some _, none => false
  | some a, some b => bvalLeB a b

/-- Inserts `x` into a list sorted descending on `f`, after every element
whose key is greater than or equal — the stable placement for ties. -/
def insertDescB (f : α → Option BVal) (s : List α) (x : α) : List α :=
  match s with
  | [] => [x]
  | y :: ys => if optValLe (f x) (f y) then y :: insertDescB f ys x else x :: y :: ys

/-- Stable descending sort on the field selected by `f`; models a Mongo `Find`
with a `-1` sort specification applied to a stored collection. -/
def mongoSortDescB (f : α → Option BVal) (l : List α) : List α :=
  l.foldl (insertDescB f) []

/-- Models `AccountsMongoRepository.GetAllAccounts`: a `Find` over the
`accounts` collection with sort specification `createdAt: -1` (the literal key
the Go code passes to `SetSort`), decoded by `cursor.All` into a slice that
stays nil when no document matches (`none` models the nil slice / JSON
null). -/
def GetAllAccounts (db : DB) : Option (List Accounts) :=
  let sorted := mongoSortDescB (fun a => docField (accountDoc a) "createdAt") db.accounts
  if sorted.isEmpty then none else some sorted

/-- Local state of one in-flight concurrent `CreateTransaction` DEPOSIT call:
its amount, program counter, and the balance captured by its `FindOne`.
Counters: 0 before the handler's `FindOne`, 1 before `UpdateBalance`, 2 before
`TransactionsCreate`, 3 done, 4 aborted by an error. -/
structure DepositThread where
  amount : Int
  pc : Nat
  captured : Int
deriving Repr, DecidableEq

/-- One storage round trip of a concurrent DEPOSIT `CreateTransaction` call
against account `accId`, built from the same embedded repository operations
the sequential handler uses: the handler's `FindOne` (capturing the balance it
computes with), then `UpdateBalance` with `captured + amount` — the
check-then-set — then the ledger `TransactionsCreate`. -/
def depositStep (accId : Nat) (db : DB) (t : DepositThread) : DB × DepositThread :=
  match t.pc with
  | 0 =>
    match AccountsFindOne db accId with
    | .ok account => (db, { t with pc := 1, captured := account.balance })
    | .error _ => (db, { t with pc := 4 })
  | 1 =>
    match UpdateBalance db accId (t.captured + t.amount) with
    | .ok db1 => (db1, { t with pc := 2 })
    | .error _ => (db, { t with pc := 4 })
  | 2 =>
    match TransactionsCreate db ⟨0, Deposit, t.amount, 0, accId, 0⟩ with
    | .ok (db1, _) => (db1, { t with pc := 3 })
    | .error _ => (db, { t with pc := 4 })
  | _ => (db, t)

/-- Runs a schedule — the interleaving, as the list of thread indices in the
order the scheduler lets them take their next storage step — over a pool of
concurrent DEPOSIT calls. -/
def runSched (accId : Nat) (sched : List Nat) (db : DB) (threads : List DepositThread) :
    DB × List DepositThread :=
  match sched with
  | [] => (db, threads)
  | i :: rest =>
    match threads[i]? with
    | some t =>
      let s := depositStep accId db t
      runSched accId rest s.1 (threads.set i s.2)
    | none => runSched accId rest db threads

/-- Concrete fixture: the spec's scenario account (balance 1000) stored under
ObjectID 1. -/
def account0 : Accounts := ⟨1, 1000, "John", "j@x.com", 1, 1⟩

/-- Concrete fixture store holding `account0` and an empty ledger. -/
def db0 : DB := ⟨[account0], [], 2, 5, 0⟩

theorem accountsFindOne_eq_ok (db : DB) (id : Nat) (a : Accounts) :
    AccountsFindOne db id = .ok a ↔ db.accounts.find? (fun x => x.id == id) = some a := by
  unfold AccountsFindOne
  cases hf : db.accounts.find? (fun x => x.id == id) <;> simp

theorem findOne_ok_id (db : DB) (id : Nat) (a : Accounts)
    (h : AccountsFindOne db id = .ok a) : a.id = id := by
  rw [accountsFindOne_eq_ok] at h
  simpa using List.find?_some h

theorem find?_updateFirst_self (p : α → Bool) (f : α → α) (l : List α) (a : α)
    (hf : l.find? p = some a) (hpf : ∀ x, p x → p (f x)) :
    (updateFirst p f l).find? p = some (f a) := by
  induction l with
  | nil => simp at hf
  | cons x xs ih =>
    by_cases hx : p x
    · rw [List.find?_cons_of_pos _ hx] at hf
      injection hf with h
      subst h
      unfold updateFirst
      rw [if_pos hx]
      exact List.find?_cons_of_pos _ (hpf x hx)
    · rw [List.find?_cons_of_neg _ hx] at hf
      unfold updateFirst
      rw [if_neg hx]
      rw [List.find?_cons_of_neg _ hx]
      exact ih hf

theorem apply_success_shape (db : DB) (req : CreateTransactionRequest) (account : Accounts)
    (hfind : AccountsFindOne db req.accountId = Except.ok account)
    (hty : goToUpper req.transactionType = Deposit ∨ goToUpper req.transactionType = Withdraw)
    (hnb : 0 ≤ switchBalance (goToUpper req.transactionType) account.balance req.amount)
    (hamt : 0 < req.amount) (hid : account.id ≠ 0) :
    CreateTransaction db req =
      ({ accounts := updateFirst (fun a => a.id == account.id)
            (fun a => { a with
              balance := switchBalance (goToUpper req.transactionType) account.balance req.amount })
            db.accounts,
         transactions := db.transactions ++
           [⟨db.nextId, goToUpper req.transactionType, req.amount, 0, account.id, db.now⟩],
         nextId := db.nextId + 1,
         now := db.now,
         updateOps := db.updateOps + 1 }, [⟨201, true, ""⟩]) := by
  have hid2 : account.id = req.accountId := findOne_ok_id db _ _ hfind
  have hfind2 : AccountsFindOne db account.id = .ok account := by rw [hid2]; exact hfind
  have hfindList : db.accounts.find? (fun x => x.id == account.id) = some account :=
    (accountsFindOne_eq_ok db _ _).mp hfind2
  have htyne : ¬ goToUpper req.transactionType = "" := by
    rcases hty with h | h <;> rw [h] <;> decide
  have htyenum : goToUpper req.transactionType = Deposit ∨
      goToUpper req.transactionType = Withdraw ∨ goToUpper req.transactionType = Transfer := by
    rcases hty with h | h
    · exact Or.inl h
    · exact Or.inr (Or.inl h)
  have hpre : switchResps (goToUpper req.transactionType) = [] := by
    rcases hty with h | h <;> rw [h] <;> decide
  have hupd : UpdateBalance db account.id
      (switchBalance (goToUpper req.transactionType) account.balance req.amount) =
      .ok { db with
        accounts := updateFirst (fun a => a.id == account.id)
          (fun a => { a with
            balance := switchBalance (goToUpper req.transactionType) account.balance req.amount })
          db.accounts,
        updateOps := db.updateOps + 1 } := by
    unfold UpdateBalance
    rw [hfind2]
    dsimp only
    rw [if_neg (not_lt.mpr hnb)]
  have hcreate : TransactionsCreate
      { db with
        accounts := updateFirst (fun a => a.id == account.id)
          (fun a => { a with
            balance := switchBalance (goToUpper req.transactionType) account.balance req.amount })
          db.accounts,
        updateOps := db.updateOps + 1 }
      ⟨0, goToUpper req.transactionType, req.amount, 0, account.id, 0⟩ =
      .ok ({ accounts := updateFirst (fun a => a.id == account.id)
              (fun a => { a with
                balance := switchBalance (goToUpper req.transactionType) account.balance req.amount })
              db.accounts,
             transactions := db.transactions ++
               [⟨db.nextId, goToUpper req.transactionType, req.amount, 0, account.id, db.now⟩],
             nextId := db.nextId + 1,
             now := db.now,
             updateOps := db.updateOps + 1 },
           ⟨db.nextId, goToUpper req.transactionType, req.amount, 0, account.id, db.now⟩) := by
    unfold TransactionsCreate
    dsimp only
    rw [if_neg htyne, if_neg (by omega : ¬ req.amount ≤ 0), if_neg hid, if_pos htyenum]
    simp
  have hfindUpd : (updateFirst (fun a => a.id == account.id)
      (fun a => { a with
        balance := switchBalance (goToUpper req.transactionType) account.balance req.amount })
      db.accounts).find? (fun x => x.id == account.id) =
      some { account with
        balance := switchBalance (goToUpper req.transactionType) account.balance req.amount } :=
    find?_updateFirst_self _ _ _ _ hfindList (fun x hx => hx)
  have hfind3 : AccountsFindOne
      { accounts := updateFirst (fun a => a.id == account.id)
          (fun a => { a with
            balance := switchBalance (goToUpper req.transactionType) account.balance req.amount })
          db.accounts,
        transactions := db.transactions ++
          [⟨db.nextId, goToUpper req.transactionType, req.amount, 0, account.id, db.now⟩],
        nextId := db.nextId + 1,
        now := db.now,
        updateOps := db.updateOps + 1 } account.id =
      .ok { account with
        balance := switchBalance (goToUpper req.transactionType) account.balance req.amount } :=
    (accountsFindOne_eq_ok _ _ _).mpr hfindUpd
  unfold CreateTransaction
  rw [hfind]
  dsimp only
  rw [hupd]
  dsimp only
  rw [hcreate]
  dsimp only
  rw [hfind3]
  dsimp only
  rw [hpre]
  rfl

theorem updateBalance_err_neg (db : DB) (id : Nat) (nb : Int) (a : Accounts)
    (hfind2 : AccountsFindOne db id = .ok a) (hnb : nb < 0) :
    UpdateBalance db id nb = .error "balance cannot be negative" := by
  unfold UpdateBalance
  rw [hfind2]
  dsimp only
  rw [if_pos hnb]

theorem apply_reject_negative (db : DB) (req : CreateTransactionRequest) (account : Accounts)
    (hfind : AccountsFindOne db req.accountId = Except.ok account)
    (hnb : switchBalance (goToUpper req.transactionType) account.balance req.amount < 0) :
    CreateTransaction db req =
      (db, switchResps (goToUpper req.transactionType) ++
        [⟨500, false, "balance cannot be negative"⟩]) := by
  have hfind2 : AccountsFindOne db account.id = .ok account := by
    rw [findOne_ok_id db _ _ hfind]; exact hfind
  unfold CreateTransaction
  rw [hfind]
  dsimp only
  rw [updateBalance_err_neg db account.id _ account hfind2 hnb]

theorem switchResps_cases (ty : String) :
    switchResps ty = [] ∨ switchResps ty = [⟨400, false, "Invalid transaction type"⟩] := by
  unfold switchResps
  split_ifs <;> simp

theorem create_responses_shape (db : DB) (req : CreateTransactionRequest) (account : Accounts)
    (hfind : AccountsFindOne db req.accountId = Except.ok account) :
    ∃ rest, (CreateTransaction db req).2 =
      switchResps (goToUpper req.transactionType) ++ rest := by
  unfold CreateTransaction
  rw [hfind]
  dsimp only
  cases hU : UpdateBalance db account.id
      (switchBalance (goToUpper req.transactionType) account.balance req.amount) with
  | error e => exact ⟨[⟨500, false, e⟩], rfl⟩
  | ok db1 =>
    dsimp only
    cases hC : TransactionsCreate db1
        ⟨0, goToUpper req.transactionType, req.amount, 0, account.id, 0⟩ with
    | error e => exact ⟨[⟨400, false, e⟩], rfl⟩
    | ok p =>
      dsimp only
      cases p with
      | mk db2 t =>
        dsimp only
        cases hR : AccountsFindOne db2 account.id with
        | error e => exact ⟨[⟨500, false, "Failed to fetch updated account"⟩], rfl⟩
        | ok u => exact ⟨[⟨201, true, ""⟩], rfl⟩

theorem applyOk_false_of_badtype (db : DB) (req : CreateTransactionRequest) (account : Accounts)
    (hfind : AccountsFindOne db req.accountId = Except.ok account)
    (h1 : ¬ goToUpper req.transactionType = Deposit)
    (h2 : ¬ goToUpper req.transactionType = Withdraw) :
    applyOk db req = false := by
  obtain ⟨rest, hr⟩ := create_responses_shape db req account hfind
  have hpre : switchResps (goToUpper req.transactionType) =
      [⟨400, false, "Invalid transaction type"⟩] := by
    unfold switchResps
    rw [if_neg h1, if_neg h2]
  unfold applyOk
  rw [hr, hpre]
  rfl

theorem applyOk_false_of_negative (db : DB) (req : CreateTransactionRequest) (account : Accounts)
    (hfind : AccountsFindOne db req.accountId = Except.ok account)
    (hnb : switchBalance (goToUpper req.transactionType) account.balance req.amount < 0) :
    applyOk db req = false := by
  unfold applyOk
  rw [apply_reject_negative db req account hfind hnb]
  rcases switchResps_cases (goToUpper req.transactionType) with h | h <;> rw [h] <;> rfl

theorem updateBalance_ok_shape (db : DB) (id : Nat) (nb : Int) (a : Accounts)
    (hfind2 : AccountsFindOne db id = .ok a) (hnb : ¬ nb < 0) :
    UpdateBalance db id nb = .ok { db with
      accounts := updateFirst (fun x => x.id == a.id)
        (fun x => { x with balance := nb }) db.accounts,
      updateOps := db.updateOps + 1 } := by
  unfold UpdateBalance
  rw [hfind2]
  dsimp only
  rw [if_neg hnb]

theorem transactionsCreate_err_amount (db : DB) (t : Transaction)
    (h1 : ¬ t.transactionType = "") (h2 : t.amount ≤ 0) :
    TransactionsCreate db t = .error "amount must be greater than 0" := by
  unfold TransactionsCreate
  rw [if_neg h1, if_pos h2]

theorem transactionsCreate_err_idzero (db : DB) (t : Transaction)
    (h1 : ¬ t.transactionType = "") (h2 : ¬ t.amount ≤ 0) (h3 : t.accountId = 0) :
    TransactionsCreate db t = .error "account ID is required" := by
  unfold TransactionsCreate
  rw [if_neg h1, if_neg h2, if_pos h3]

theorem goToUpper_matched_ne_empty (ty : String)
    (hty : ty = Deposit ∨ ty = Withdraw) : ¬ ty = "" := by
  rcases hty with h | h <;> rw [h] <;> decide

theorem switchResps_matched (ty : String) (hty : ty = Deposit ∨ ty = Withdraw) :
    switchResps ty = [] := by
  unfold switchResps
  rcases hty with h | h <;> rw [h] <;> decide

theorem applyOk_false_of_amount (db : DB) (req : CreateTransactionRequest) (account : Accounts)
    (hfind : AccountsFindOne db req.accountId = Except.ok account)
    (hamt : req.amount ≤ 0) :
    applyOk db req = false := by
  by_cases h1 : goToUpper req.transactionType = Deposit ∨ goToUpper req.transactionType = Withdraw
  · by_cases hnb : switchBalance (goToUpper req.transactionType) account.balance req.amount < 0
    · exact applyOk_false_of_negative db req account hfind hnb
    · have hfind2 : AccountsFindOne db account.id = .ok account := by
        rw [findOne_ok_id db _ _ hfind]; exact hfind
      unfold applyOk CreateTransaction
      rw [hfind]
      dsimp only
      rw [updateBalance_ok_shape db account.id _ account hfind2 hnb]
      dsimp only
      rw [transactionsCreate_err_amount _ _ (goToUpper_matched_ne_empty _ h1) hamt]
      dsimp only
      rw [switchResps_matched _ h1]
      rfl
  · push_neg at h1
    exact applyOk_false_of_badtype db req account hfind h1.1 h1.2

theorem applyOk_false_of_idzero (db : DB) (req : CreateTransactionRequest) (account : Accounts)
    (hfind : AccountsFindOne db req.accountId = Except.ok account)
    (hidz : account.id = 0) :
    applyOk db req = false := by
  by_cases h1 : goToUpper req.transactionType = Deposit ∨ goToUpper req.transactionType = Withdraw
  · by_cases hnb : switchBalance (goToUpper req.transactionType) account.balance req.amount < 0
    · exact applyOk_false_of_negative db req account hfind hnb
    · by_cases hamt : req.amount ≤ 0
      · exact applyOk_false_of_amount db req account hfind hamt
      · have hfind2 : AccountsFindOne db account.id = .ok account := by
          rw [findOne_ok_id db _ _ hfind]; exact hfind
        unfold applyOk CreateTransaction
        rw [hfind]
        dsimp only
        rw [updateBalance_ok_shape db account.id _ account hfind2 hnb]
        dsimp only
        rw [transactionsCreate_err_idzero _ _ (goToUpper_matched_ne_empty _ h1) hamt hidz]
        dsimp only
        rw [switchResps_matched _ h1]
        rfl
  · push_neg at h1
    exact applyOk_false_of_badtype db req account hfind h1.1 h1.2

theorem applyOk_true_iff (db : DB) (req : CreateTransactionRequest) (account : Accounts)
    (hfind : AccountsFindOne db req.accountId = Except.ok account) :
    applyOk db req = true ↔
      ((goToUpper req.transactionType = Deposit ∨ goToUpper req.transactionType = Withdraw)
        ∧ 0 ≤ switchBalance (goToUpper req.transactionType) account.balance req.amount
        ∧ 0 < req.amount ∧ account.id ≠ 0) := by
  constructor
  · intro h
    refine ⟨?_, ?_, ?_, ?_⟩
    · by_contra hA
      push_neg at hA
      rw [applyOk_false_of_badtype db req account hfind hA.1 hA.2] at h
      cases h
    · by_contra hB
      push_neg at hB
      rw [applyOk_false_of_negative db req account hfind hB] at h
      cases h
    · by_contra hC
      push_neg at hC
      rw [applyOk_false_of_amount db req account hfind hC] at h
      cases h
    · intro hD
      rw [applyOk_false_of_idzero db req account hfind hD] at h
      cases h
  · rintro ⟨hty, hnb, hamt, hid⟩
    unfold applyOk
    rw [apply_success_shape db req account hfind hty hnb hamt hid]
    rfl

theorem accountDoc_createdAt_missing (a : Accounts) :
    docField (accountDoc a) "createdAt" = none := by
  unfold accountDoc docField
  by_cases h1 : a.id = 0 <;> by_cases h2 : a.createdAt = 0 <;> by_cases h3 : a.updatedAt = 0 <;>
    simp [h1, h2, h3, List.find?]

theorem insertDescB_allNone (f : α → Option BVal) (hf : ∀ x, f x = none)
    (s : List α) (x : α) : insertDescB f s x = s ++ [x] := by
  induction s with
  | nil => rfl
  | cons y ys ih =>
    unfold insertDescB
    rw [hf x, hf y]
    simp only [optValLe, if_pos]
    rw [ih]
    simp

theorem mongoSortDescB_allNone (f : α → Option BVal) (hf : ∀ x, f x = none)
    (l : List α) : mongoSortDescB f l = l := by
  unfold mongoSortDescB
  suffices h : ∀ acc : List α, l.foldl (insertDescB f) acc = acc ++ l by
    simpa using h []
  induction l with
  | nil => intro acc; simp
  | cons x xs ih =>
    intro acc
    simp only [List.foldl_cons]
    rw [insertDescB_allNone f hf, ih]
    simp

/-- C1: Balance non-negativity — for every account and `Apply`
(`CreateTransaction`) call, if the call succeeds the stored balance afterwards
is ≥ 0; whenever the computed new balance would be negative, the call fails
(`UpdateBalance` rejects it with the negative-balance `InvalidArgument`
error), the whole store — in particular the stored balance — is unchanged, and
no transaction is appended to the ledger. -/
theorem c1_balance_nonneg (db : DB) (req : CreateTransactionRequest) (account : Accounts)
    (hfind : AccountsFindOne db req.accountId = Except.ok account) :
    (applyOk db req = true →
      ∃ q, storedBalance (applyDB db req) req.accountId = some q ∧ 0 ≤ q)
    ∧ (switchBalance (goToUpper req.transactionType) account.balance req.amount < 0 →
      applyOk db req = false ∧ applyDB db req = db
      ∧ storedBalance (applyDB db req) req.accountId = storedBalance db req.accountId
      ∧ (applyDB db req).transactions = db.transactions) := by
  constructor
  · intro h
    obtain ⟨hty, hnb, hamt, hid⟩ := (applyOk_true_iff db req account hfind).mp h
    have hshape := apply_success_shape db req account hfind hty hnb hamt hid
    have hfind2 : AccountsFindOne db account.id = .ok account := by
      rw [findOne_ok_id db _ _ hfind]; exact hfind
    have hfindList : db.accounts.find? (fun x => x.id == account.id) = some account :=
      (accountsFindOne_eq_ok db _ _).mp hfind2
    refine ⟨switchBalance (goToUpper req.transactionType) account.balance req.amount, ?_, hnb⟩
    unfold applyDB storedBalance
    rw [hshape]
    dsimp only
    rw [← findOne_ok_id db _ _ hfind]
    rw [find?_updateFirst_self (fun x => x.id == account.id)
      (fun x => { x with
        balance := switchBalance (goToUpper req.transactionType) account.balance req.amount })
      db.accounts account hfindList (fun x hx => hx)]
    rfl
  · intro hnb
    have h1 : applyDB db req = db := by
      unfold applyDB
      rw [apply_reject_negative db req account hfind hnb]
    refine ⟨applyOk_false_of_negative db req account hfind hnb, h1, ?_, ?_⟩ <;> rw [h1]

/-- C1 witness: at the concrete store `db0` (balance 1000), a DEPOSIT of 500
succeeds with a non-negative stored balance, and a WITHDRAW of 2000 — whose
computed balance would be −1000 — fails and leaves the store untouched. -/
theorem c1_witness :
    (∃ q, storedBalance (applyDB db0 ⟨"DEPOSIT", 500, 1⟩) 1 = some q ∧ 0 ≤ q)
    ∧ applyOk db0 ⟨"WITHDRAW", 2000, 1⟩ = false
    ∧ applyDB db0 ⟨"WITHDRAW", 2000, 1⟩ = db0 := by
  refine ⟨(c1_balance_nonneg db0 ⟨"DEPOSIT", 500, 1⟩ account0 (by decide)).1 (by decide),
    ?_, ?_⟩
  · exact ((c1_balance_nonneg db0 ⟨"WITHDRAW", 2000, 1⟩ account0 (by decide)).2 (by decide)).1
  · exact ((c1_balance_nonneg db0 ⟨"WITHDRAW", 2000, 1⟩ account0 (by decide)).2 (by decide)).2.1

/-- C3: Delta correctness — every successful `Apply` stores balance `b + a`
for a DEPOSIT of amount `a` and `b - a` for a WITHDRAW, and appends exactly
one ledger transaction of that type and amount for that account. -/
theorem c3_delta_correct (db : DB) (req : CreateTransactionRequest) (account : Accounts)
    (hfind : AccountsFindOne db req.accountId = Except.ok account)
    (hok : applyOk db req = true) :
    (goToUpper req.transactionType = Deposit →
      storedBalance (applyDB db req) req.accountId = some (account.balance + req.amount))
    ∧ (goToUpper req.transactionType = Withdraw →
      storedBalance (applyDB db req) req.accountId = some (account.balance - req.amount))
    ∧ ∃ t, (applyDB db req).transactions = db.transactions ++ [t]
        ∧ t.transactionType = goToUpper req.transactionType
        ∧ t.amount = req.amount ∧ t.accountId = account.id := by
  obtain ⟨hty, hnb, hamt, hid⟩ := (applyOk_true_iff db req account hfind).mp hok
  have hshape := apply_success_shape db req account hfind hty hnb hamt hid
  have hfind2 : AccountsFindOne db account.id = .ok account := by
    rw [findOne_ok_id db _ _ hfind]; exact hfind
  have hfindList : db.accounts.find? (fun x => x.id == account.id) = some account :=
    (accountsFindOne_eq_ok db _ _).mp hfind2
  have hbal : storedBalance (applyDB db req) req.accountId =
      some (switchBalance (goToUpper req.transactionType) account.balance req.amount) := by
    unfold applyDB storedBalance
    rw [hshape]
    dsimp only
    rw [← findOne_ok_id db _ _ hfind]
    rw [find?_updateFirst_self (fun x => x.id == account.id)
      (fun x => { x with
        balance := switchBalance (goToUpper req.transactionType) account.balance req.amount })
      db.accounts account hfindList (fun x hx => hx)]
    rfl
  refine ⟨?_, ?_, ?_⟩
  · intro h
    rw [hbal, h]
    simp [switchBalance]
  · intro h
    rw [hbal, h]
    simp [switchBalance, Deposit, Withdraw]
  · refine ⟨⟨db.nextId, goToUpper req.transactionType, req.amount, 0, account.id, db.now⟩,
      ?_, rfl, rfl, rfl⟩
    unfold applyDB
    rw [hshape]

/-- C3 witness: depositing 500 into the concrete account with balance 1000
yields stored balance 1500 and appends one DEPOSIT transaction of amount
500. -/
theorem c3_witness :
    storedBalance (applyDB db0 ⟨"DEPOSIT", 500, 1⟩) 1 = some 1500
    ∧ ∃ t, (applyDB db0 ⟨"DEPOSIT", 500, 1⟩).transactions = db0.transactions ++ [t]
        ∧ t.transactionType = Deposit ∧ t.amount = 500 := by
  have h := c3_delta_correct db0 ⟨"DEPOSIT", 500, 1⟩ account0 (by decide) (by decide)
  refine ⟨(h.1 (by decide)).trans (by decide), ?_⟩
  obtain ⟨t, ht1, ht2, ht3, _⟩ := h.2.2
  exact ⟨t, ht1, by rw [ht2]; decide, ht3⟩

/-- C2 (code defect, evaluated at the failing inputs): the handler performs no
amount validation and its invalid-type arm does not return, so rejection is
not side-effect-free.  A DEPOSIT of amount −100 on the stored balance 1000 is
answered with a failure, yet the stored balance has been changed to 900; a
request of type FOO with amount 500 is answered with a failure, yet an
`UpdateOne` write was executed (`updateOps` grew), the balance value and
ledger being unchanged only because the written value was identical and the
ledger append rejected the type. -/
theorem c2_missing_short_circuit :
    (applyOk db0 ⟨"DEPOSIT", -100, 1⟩ = false
      ∧ storedBalance db0 1 = some 1000
      ∧ storedBalance (applyDB db0 ⟨"DEPOSIT", -100, 1⟩) 1 = some 900)
    ∧ (applyOk db0 ⟨"FOO", 500, 1⟩ = false
      ∧ (applyDB db0 ⟨"FOO", 500, 1⟩).updateOps = db0.updateOps + 1
      ∧ storedBalance (applyDB db0 ⟨"FOO", 500, 1⟩) 1 = some 1000
      ∧ (applyDB db0 ⟨"FOO", 500, 1⟩).transactions = []) := by decide

/-- C4 (code defect, evaluated at the failing input): a request of type
TRANSFER is answered with the invalid-type rejection (the first response
written, status 400), yet — the invalid-type arm not returning, the balance
update succeeding with delta zero, and TRANSFER passing the ledger enum —
a ledger entry is appended, so this failed `Apply` grows the account's
transaction list by one. -/
theorem c4_transfer_orphan_append :
    applyOk db0 ⟨"TRANSFER", 500, 1⟩ = false
    ∧ (CreateTransaction db0 ⟨"TRANSFER", 500, 1⟩).2.head? =
        some ⟨400, false, "Invalid transaction type"⟩
    ∧ (applyDB db0 ⟨"TRANSFER", 500, 1⟩).transactions.length =
        db0.transactions.length + 1 := by decide

/-- C6 (code defect, evaluated at the failing interleaving): two concurrent
deposits of 500 against the stored balance 1000, scheduled so that both
`FindOne` reads happen before either `UpdateBalance` write (schedule
0,1,0,1,0,1), both complete yet leave the balance at 1500 — the check-then-set
loses one update — whereas the claim requires 1000 + 2·500 = 2000, the value
the serialized schedule 0,0,0,1,1,1 produces. -/
theorem c6_lost_update :
    ((runSched 1 [0, 1, 0, 1, 0, 1] db0 [⟨500, 0, 0⟩, ⟨500, 0, 0⟩]).2.all
        (fun t => t.pc == 3)) = true
    ∧ storedBalance (runSched 1 [0, 1, 0, 1, 0, 1] db0 [⟨500, 0, 0⟩, ⟨500, 0, 0⟩]).1 1 =
        some 1500
    ∧ ¬ ((1500 : Int) = 1000 + 2 * 500)
    ∧ storedBalance (runSched 1 [0, 0, 0, 1, 1, 1] db0 [⟨500, 0, 0⟩, ⟨500, 0, 0⟩]).1 1 =
        some 2000 := by decide

/-- C5: Email uniqueness on creation — creating an account whose email is
already stored fails with the duplicate-email `Conflict` error and leaves the
store untouched (so nothing is inserted and the pre-existing account's id and
balance are unchanged), while a creation with a fresh email succeeds and
assigns `id`, `createdAt` and `updatedAt`. -/
theorem c5_email_uniqueness (db : DB) (req : CreateAccountRequest)
    (hname : ¬ req.name = "") (hemail : ¬ req.email = "") :
    (∀ old, db.accounts.find? (fun a => a.email == req.email) = some old →
      handleCreateAccount db req =
        (db, ⟨400, false, "account with this email already exists",
          some ⟨old.id, req.initialBalance, req.name, req.email, 0, 0⟩⟩))
    ∧ (db.accounts.find? (fun a => a.email == req.email) = none →
      handleCreateAccount db req =
        ({ db with
            accounts := db.accounts ++
              [⟨db.nextId, req.initialBalance, req.name, req.email, db.now, db.now⟩],
            nextId := db.nextId + 1 },
          ⟨201, true, "",
            some ⟨db.nextId, req.initialBalance, req.name, req.email, db.now, db.now⟩⟩)) := by
  constructor
  · intro old hfound
    unfold handleCreateAccount
    rw [if_neg hname, if_neg hemail]
    dsimp only
    unfold AccountsCreateAccount
    dsimp only
    rw [hfound]
  · intro hnone
    unfold handleCreateAccount
    rw [if_neg hname, if_neg hemail]
    dsimp only
    unfold AccountsCreateAccount
    dsimp only
    rw [hnone]
    simp

/-- C5 witness: against `db0` (which stores `j@x.com`), creating "Jane" with
the same email fails with the duplicate error and leaves the store unchanged,
while creating her with a fresh email inserts the account with assigned id and
timestamps. -/
theorem c5_witness :
    handleCreateAccount db0 ⟨500, "Jane", "j@x.com"⟩ =
      (db0, ⟨400, false, "account with this email already exists",
        some ⟨1, 500, "Jane", "j@x.com", 0, 0⟩⟩)
    ∧ handleCreateAccount db0 ⟨500, "Jane", "jane@x.com"⟩ =
      ({ db0 with
          accounts := db0.accounts ++ [⟨2, 500, "Jane", "jane@x.com", 5, 5⟩],
          nextId := 3 },
        ⟨201, true, "", some ⟨2, 500, "Jane", "jane@x.com", 5, 5⟩⟩) := by
  constructor
  · exact (c5_email_uniqueness db0 ⟨500, "Jane", "j@x.com"⟩ (by decide) (by decide)).1
      account0 (by decide)
  · exact (c5_email_uniqueness db0 ⟨500, "Jane", "jane@x.com"⟩ (by decide) (by decide)).2
      (by decide)

/-- C9: the duplicate-email error path of account creation is not
side-effect-free on its argument — the repository copies the pre-existing
account's id into the caller-supplied record, and the handler's 400 error
response carries that record as `Data`, exposing the existing account's id. -/
theorem c9_duplicate_email_mutates_argument (db : DB) (req : CreateAccountRequest)
    (old : Accounts) (hname : ¬ req.name = "") (hemail : ¬ req.email = "")
    (hfound : db.accounts.find? (fun a => a.email == req.email) = some old) :
    (AccountsCreateAccount db ⟨0, req.initialBalance, req.name, req.email, 0, 0⟩).2.id = old.id
    ∧ (handleCreateAccount db req).2.success = false
    ∧ (handleCreateAccount db req).2.data =
        some ⟨old.id, req.initialBalance, req.name, req.email, 0, 0⟩ := by
  have hrepo : AccountsCreateAccount db ⟨0, req.initialBalance, req.name, req.email, 0, 0⟩ =
      (.error "account with this email already exists",
        ⟨old.id, req.initialBalance, req.name, req.email, 0, 0⟩) := by
    unfold AccountsCreateAccount
    dsimp only
    rw [hfound]
  have hhand : handleCreateAccount db req =
      (db, ⟨400, false, "account with this email already exists",
        some ⟨old.id, req.initialBalance, req.name, req.email, 0, 0⟩⟩) := by
    unfold handleCreateAccount
    rw [if_neg hname, if_neg hemail]
    dsimp only
    rw [hrepo]
  exact ⟨by rw [hrepo], by rw [hhand], by rw [hhand]⟩

/-- C9 witness: creating "Jane" with the already-stored email `j@x.com`
returns a failure response whose `Data` record carries the pre-existing
account's id 1. -/
theorem c9_witness :
    (handleCreateAccount db0 ⟨500, "Jane", "j@x.com"⟩).2.success = false
    ∧ (handleCreateAccount db0 ⟨500, "Jane", "j@x.com"⟩).2.data =
        some ⟨1, 500, "Jane", "j@x.com", 0, 0⟩ := by
  have h := c9_duplicate_email_mutates_argument db0 ⟨500, "Jane", "j@x.com"⟩ account0
    (by decide) (by decide) (by decide)
  exact ⟨h.2.1, h.2.2⟩

/-- C8: Ledger `Append` validation — `TransactionsCreate` fails exactly when
the amount is non-positive, the type is not one of DEPOSIT, WITHDRAW,
TRANSFER (the required-type check on the empty string is subsumed: the empty
string is not one of the three), or the account ObjectID is zero (not a
well-formed identifier); in every failure case the store is untouched (the
model returns no new store), and on success exactly the new record — with
`id` and `createdAt` assigned — is inserted. -/
theorem c8_ledger_validation (db : DB) (t : Transaction) :
    ((∃ e, TransactionsCreate db t = .error e) ↔
      (t.amount ≤ 0
        ∨ ¬ (t.transactionType = Deposit ∨ t.transactionType = Withdraw ∨
             t.transactionType = Transfer)
        ∨ t.accountId = 0))
    ∧ ∀ db1 t1, TransactionsCreate db t = .ok (db1, t1) →
        db1.transactions = db.transactions ++ [t1]
        ∧ db1.accounts = db.accounts
        ∧ t1.createdAt = db.now
        ∧ t1.id = (if t.id = 0 then db.nextId else t.id)
        ∧ t1.transactionType = t.transactionType
        ∧ t1.amount = t.amount
        ∧ t1.accountId = t.accountId := by
  unfold TransactionsCreate
  by_cases h1 : t.transactionType = ""
  · rw [if_pos h1]
    refine ⟨⟨fun _ => Or.inr (Or.inl (by rw [h1]; decide)), fun _ => ⟨_, rfl⟩⟩, ?_⟩
    intro db1 t1 hcontra
    exact Except.noConfusion hcontra
  · rw [if_neg h1]
    by_cases h2 : t.amount ≤ 0
    · rw [if_pos h2]
      refine ⟨⟨fun _ => Or.inl h2, fun _ => ⟨_, rfl⟩⟩, ?_⟩
      intro db1 t1 hcontra
      exact Except.noConfusion hcontra
    · rw [if_neg h2]
      by_cases h3 : t.accountId = 0
      · rw [if_pos h3]
        refine ⟨⟨fun _ => Or.inr (Or.inr h3), fun _ => ⟨_, rfl⟩⟩, ?_⟩
        intro db1 t1 hcontra
        exact Except.noConfusion hcontra
      · rw [if_neg h3]
        by_cases h4 : t.transactionType = Deposit ∨ t.transactionType = Withdraw ∨
            t.transactionType = Transfer
        · rw [if_pos h4]
          constructor
          · constructor
            · rintro ⟨e, he⟩
              exact Except.noConfusion he
            · intro hr
              rcases hr with h | h | h
              · exact absurd h h2
              · exact absurd h4 h
              · exact absurd h h3
          · intro db1 t1 hok
            injection hok with h
            injection h with ha hb
            subst ha
            subst hb
            by_cases h5 : t.id = 0 <;> simp [h5]
        · rw [if_neg h4]
          refine ⟨⟨fun _ => Or.inr (Or.inl h4), fun _ => ⟨_, rfl⟩⟩, ?_⟩
          intro db1 t1 hcontra
          exact Except.noConfusion hcontra

/-- C8 witness: at a concrete store, appending type FOO fails, while a valid
DEPOSIT append of 500 for account 1 inserts exactly one record with assigned
id 2 and the call's timestamp. -/
theorem c8_witness :
    (∃ e, TransactionsCreate db0 ⟨0, "FOO", 500, 0, 1, 0⟩ = Except.error e)
    ∧ ({ db0 with transactions := [⟨2, "DEPOSIT", 500, 0, 1, 5⟩], nextId := 3 } : DB).transactions
        = db0.transactions ++ [⟨2, "DEPOSIT", 500, 0, 1, 5⟩]
    ∧ (⟨2, "DEPOSIT", 500, 0, 1, 5⟩ : Transaction).createdAt = db0.now := by
  refine ⟨(c8_ledger_validation db0 ⟨0, "FOO", 500, 0, 1, 0⟩).1.mpr (by decide), ?_, ?_⟩
  · exact ((c8_ledger_validation db0 ⟨0, "DEPOSIT", 500, 0, 1, 0⟩).2
      { db0 with transactions := [⟨2, "DEPOSIT", 500, 0, 1, 5⟩], nextId := 3 }
      ⟨2, "DEPOSIT", 500, 0, 1, 5⟩ (by decide)).1
  · exact ((c8_ledger_validation db0 ⟨0, "DEPOSIT", 500, 0, 1, 0⟩).2
      { db0 with transactions := [⟨2, "DEPOSIT", 500, 0, 1, 5⟩], nextId := 3 }
      ⟨2, "DEPOSIT", 500, 0, 1, 5⟩ (by decide)).2.2.1

/-- C10: transaction type matching is case-insensitive — the handler uppercases
the request's type before the `switch` comparison and before storing it, so a
request behaves exactly like the corresponding uppercase request; in
particular "deposit" and "Withdraw" are accepted and recorded as DEPOSIT and
WITHDRAW. -/
theorem c10_case_insensitive (db : DB) (req : CreateTransactionRequest) :
    (goToUpper req.transactionType = Deposit →
      CreateTransaction db req = CreateTransaction db ⟨Deposit, req.amount, req.accountId⟩)
    ∧ (goToUpper req.transactionType = Withdraw →
      CreateTransaction db req = CreateTransaction db ⟨Withdraw, req.amount, req.accountId⟩)
    ∧ applyOk db0 ⟨"deposit", 500, 1⟩ = true
    ∧ (applyDB db0 ⟨"deposit", 500, 1⟩).transactions.map (fun t => t.transactionType) =
        [Deposit]
    ∧ applyOk db0 ⟨"Withdraw", 200, 1⟩ = true
    ∧ (applyDB db0 ⟨"Withdraw", 200, 1⟩).transactions.map (fun t => t.transactionType) =
        [Withdraw] := by
  refine ⟨?_, ?_, by decide, by decide, by decide, by decide⟩
  · intro h
    have hD : goToUpper Deposit = Deposit := by decide
    unfold CreateTransaction
    dsimp only
    rw [h, hD]
  · intro h
    have hW : goToUpper Withdraw = Withdraw := by decide
    unfold CreateTransaction
    dsimp only
    rw [h, hW]

/-- C10 witness: the lowercase request "deposit" runs exactly as the uppercase
DEPOSIT request does. -/
theorem c10_witness :
    CreateTransaction db0 ⟨"deposit", 500, 1⟩ =
      CreateTransaction db0 ⟨"DEPOSIT", 500, 1⟩ :=
  (c10_case_insensitive db0 ⟨"deposit", 500, 1⟩).1 (by decide)

/-- C7 counterexample: with no stored accounts `GetAllAccounts` returns the
nil (null) collection, not an empty sequence; and with two accounts created at
times 1 and 2 in that order, the returned order has `createdAt` ascending
(1 then 2), not descending — the sort key `createdAt` does not match the
stored bson key `created_at`. -/
theorem c7_counterexample :
    GetAllAccounts ⟨[], [], 1, 1, 0⟩ = none
    ∧ (GetAllAccounts ⟨[⟨1, 5, "a", "a@x", 1, 1⟩, ⟨2, 6, "b", "b@x", 2, 2⟩], [], 3, 9, 0⟩).map
        (fun l => l.map (fun a => a.createdAt)) = some [1, 2] := by decide

/-- C7 (amended): `GetAllAccounts` returns the accounts in their stored
(insertion) order — the requested descending sort is on the key `createdAt`,
which no stored document has (the field is stored as `created_at`), so every
comparison ties and the stable sort leaves the order unchanged — and when
there are no records it returns the nil (null) collection rather than an
empty sequence. -/
theorem c7_store_order (db : DB) :
    GetAllAccounts db = if db.accounts.isEmpty then none else some db.accounts := by
  unfold GetAllAccounts
  dsimp only
  rw [mongoSortDescB_allNone (fun a => docField (accountDoc a) "createdAt")
    accountDoc_createdAt_missing db.accounts]

/-- Grounding of the concurrency model: one deposit thread scheduled without
interleaving performs exactly the store mutations of the sequential handler
run for the same DEPOSIT request. -/
theorem depositThread_serial_matches_handler :
    (runSched 1 [0, 0, 0] db0 [⟨500, 0, 0⟩]).1 = applyDB db0 ⟨"DEPOSIT", 500, 1⟩ := by decide
